import Mathlib

/-
Verification of the token-verification and authorization subsystem of
media-service-go: a shallow embedding of the `auth` package (JWKS caching
client, `VerifyToken`, `AuthMiddleware`, `RequirePermissions`) together with
theorems settling the specification claims about it.
-/

namespace MediaAuth

/-- Json values as Go's `encoding/json` produces them when unmarshalling into
`map[string]interface{}` / `[]interface{}` trees.  Numbers are modelled as
integers (token timestamps are integral seconds). -/
inductive Json where
  | null : Json
  | bool (b : Bool) : Json
  | num (n : Int) : Json
  | str (s : String) : Json
  | arr (xs : List Json) : Json
  | obj (fields : List (String × Json)) : Json

/-- Claim / header maps: `map[string]interface{}` modelled as an association
list (`json.Unmarshal` keeps one binding per key). -/
abbrev JObj := List (String × Json)

/-- Go map lookup `m["k"]`, yielding the value when the key is present. -/
def jLookup (o : JObj) (k : String) : Option Json :=
  (o.find? (fun p => p.1 == k)).map (fun p => p.2)

/-- Value of one base64url alphabet character (`A-Z a-z 0-9 - _`), `none` for
a character outside the alphabet (including the padding character). -/
def b64Val (c : Char) : Option Nat :=
  if 'A' ≤ c ∧ c ≤ 'Z' then some (c.toNat - 65)
  else if 'a' ≤ c ∧ c ≤ 'z' then some (c.toNat - 97 + 26)
  else if '0' ≤ c ∧ c ≤ '9' then some (c.toNat - 48 + 52)
  else if c = '-' then some 62
  else if c = '_' then some 63
  else none

/-- Reassemble bytes from 6-bit values, as Go's unpadded (`Raw`) decoding
does: full groups of four sextets give three bytes, a trailing group of two
or three sextets gives one or two bytes (spare low bits dropped, Go's
non-strict mode), and a trailing group of one sextet is a corrupt input. -/
def b64DecodeVals : List Nat → Option (List Nat)
  | [] => some []
  | [_] => none
  | [a, b] => some [a * 4 + b / 16]
  | [a, b, c] => some [a * 4 + b / 16, (b % 16) * 16 + c / 4]
  | a :: b :: c :: d :: rest =>
    match b64DecodeVals rest with
    | none => none
    | some tail => some ([a * 4 + b / 16, (b % 16) * 16 + c / 4, (c % 4) * 64 + d] ++ tail)

/-- Go's `base64.RawURLEncoding.DecodeString` on a segment given as its
character list: fails exactly when some character is outside the base64url
alphabet or the length is congruent to 1 modulo 4; otherwise yields the
decoded bytes. -/
def base64URLDecode (cs : List Char) : Option (List Nat) :=
  match cs.mapM b64Val with
  | none => none
  | some vals => b64DecodeVals vals

/-- Go's `strings.Split(s, sep)` for a one-character separator, on the
character list of `s`: the substrings between consecutive separators, with
`n` separators yielding `n + 1` parts (the empty string yields one empty
part, as in Go). -/
def splitOnChar (sep : Char) : List Char → List (List Char)
  | [] => [[]]
  | c :: rest =>
    if c = sep then [] :: splitOnChar sep rest
    else
      match splitOnChar sep rest with
      | [] => [[c]]
      | g :: gs => (c :: g) :: gs

/-- Go's `strings.HasPrefix`, on character lists. -/
def hasLeading : List Char → List Char → Bool
  | [], _ => true
  | _ :: _, [] => false
  | p :: ps, c :: cs => p == c && hasLeading ps cs

/-- The `auth.AuthContext` struct: the authenticated identity produced by
`VerifyToken`. -/
structure AuthContext where
  UserID : String
  OrgID : Option String
  Roles : List String
  Permissions : List String
  Email : Option String
  Name : Option String
deriving Repr

/-- The `auth.Config` struct (JWKS URL, issuer, audience, cache TTL). -/
structure Config where
  JWKSUrl : String
  Issuer : String
  Audience : String
  JWKSCacheTTL : Int
deriving Repr

/-- One key of a JWKS document: its key id and the result of `key.Raw`
(raw public-key material, modelled opaquely as a number, or the conversion
error message). -/
structure JWKKey where
  kid : String
  raw : Except String Nat
deriving Repr

/-- A `jwk.Set`, looked up by key id. -/
abbrev KeySet := List JWKKey

/-- The `keySet.LookupKeyID(kid)` call: first key whose id matches. -/
def lookupKeyID (ks : KeySet) (kid : String) : Option JWKKey :=
  ks.find? (fun k => k.kid == kid)

/-- The `cachedJWKS` struct: a key set plus its absolute expiry instant
(instants are integers in arbitrary units). -/
structure CachedJWKS where
  set : KeySet
  expiresAt : Int
deriving Repr

/-- The mutable state of a `JWKSClient`: the optional cached entry and the
configured TTL. -/
structure JWKSClientState where
  cache : Option CachedJWKS
  cacheTTL : Int
deriving Repr

/-- Outcome of reading and parsing the fetch response body
(`jwk.ParseReader`). -/
inductive BodyResult where
  | parseFail (msg : String)
  | parsed (s : KeySet)

/-- Outcome of one attempted HTTP round trip in `GetKeySet`:
request construction failed (`http.NewRequestWithContext` error), the
request itself failed (`httpClient.Do` error), or a response with a status
code and a body arrived. -/
inductive FetchResult where
  | reqError (msg : String)
  | doError (msg : String)
  | response (status : Nat) (body : BodyResult)

/-- The refresh path of `GetKeySet` (source lines 102-136), entered when no
fresh cache entry exists.  Returns the call result, the client state after
the call, and whether a network round trip was attempted (`false` only when
building the request itself failed, so no request was ever sent). -/
def refreshJWKS (st : JWKSClientState) (now : Int) (fetch : FetchResult) :
    Except String KeySet × JWKSClientState × Bool :=
  match fetch with
  | .reqError msg => (.error ("failed to create request: " ++ msg), st, false)
  | .doError msg =>
    match st.cache with
    | some c => (.ok c.set, st, true)
    | none => (.error ("failed to fetch JWKS: " ++ msg), st, true)
  | .response status body =>
    if status ≠ 200 then
      match st.cache with
      | some c => (.ok c.set, st, true)
      | none => (.error ("JWKS endpoint returned status " ++ toString status), st, true)
    else
      match body with
      | .parseFail msg =>
        match st.cache with
        | some c => (.ok c.set, st, true)
        | none => (.error ("failed to parse JWKS: " ++ msg), st, true)
      | .parsed s =>
        (.ok s, ⟨some ⟨s, now + st.cacheTTL⟩, st.cacheTTL⟩, true)

/-- The `(*JWKSClient).GetKeySet` method.  `now` is the call's time instant;
`fetch` is the outcome the network would deliver if a fetch were attempted.
In this sequential embedding the read-locked freshness check and the
write-locked re-check of the source collapse into one check (both observe
the same state and instant here).  The third component records whether a
network fetch was performed. -/
def GetKeySet (st : JWKSClientState) (now : Int) (fetch : FetchResult) :
    Except String KeySet × JWKSClientState × Bool :=
  match st.cache with
  | some c =>
    if now < c.expiresAt then (.ok c.set, st, false)
    else refreshJWKS st now fetch
  | none => refreshJWKS st now fetch

/-- Errors arising inside the `jwt.Parse` call.  Constructors carry the
message text produced by the library or by the keyfunc closure of the
source, so that the wrapped error strings can be reconstructed. -/
inductive JwtError where
  | malformed (msg : String)
  | unexpectedSigningMethod (alg : String)
  | signatureInvalid
  | tokenExpired
  | tokenNotYetValid
deriving Repr, DecidableEq

/-- Errors of `VerifyToken`, one constructor per `return nil, fmt.Errorf(...)`
site of the source (lines 139-256); constructors carry the message text of
the wrapped external error where the source wraps one.  The
`verifiedToken.Claims.(jwt.MapClaims)` assertion of the source cannot fail
(`jwt.Parse` always produces `MapClaims`), so it has no constructor. -/
inductive VerifyError where
  | invalidFormat
  | decodeHeaderFailed (msg : String)
  | parseHeaderFailed (msg : String)
  | missingKid
  | jwksFailed (msg : String)
  | unknownKey (kid : String)
  | rawKeyFailed (msg : String)
  | verificationFailed (e : JwtError)
  | invalidIssuer
  | invalidAudience
  | missingSub
deriving Repr, DecidableEq

/-- The behaviour of the external libraries consumed by `VerifyToken`,
quantified over in the theorems: `encoding/json` unmarshalling of decoded
header bytes, the error text Go's base64 decoder would produce for a given
segment, and the token-string-dependent behaviour of the `jwt` library
(its own payload parse, the declared algorithm, whether the signing method
is RSA, and whether the signature verifies under a given public key).
`now` is the instant at which standard time claims are validated. -/
structure VerifyEnv where
  parseJson : List Nat → Except String JObj
  b64ErrMsg : String → String
  jwtPayloadClaims : String → Except String JObj
  jwtAlg : String → String
  jwtMethodIsRSA : String → Bool
  jwtSigValid : String → Nat → Bool
  now : Int

/-- Modelled from the spec: the jwt library's standard-claims validation
(performed inside `jwt.Parse`, whose source is not part of this repository).
Per the spec, expiration and not-before checks "are part of the same
validation pass and must reject with TokenExpired/TokenNotYetValid
respectively"; per the token format's standard semantics each claim is
checked only when present: `exp` passes iff `now < exp`, `nbf` passes iff
`¬ now < nbf`, and a present claim of a non-numeric type is a claims-parse
failure. -/
def validateTimeClaims (now : Int) (claims : JObj) : Except JwtError Unit :=
  match jLookup claims "exp" with
  | some (.num e) =>
    if now < e then
      match jLookup claims "nbf" with
      | some (.num n) => if now < n then .error .tokenNotYetValid else .ok ()
      | some _ => .error (.malformed "nbf is invalid")
      | none => .ok ()
    else .error .tokenExpired
  | some _ => .error (.malformed "exp is invalid")
  | none =>
    match jLookup claims "nbf" with
    | some (.num n) => if now < n then .error .tokenNotYetValid else .ok ()
    | some _ => .error (.malformed "nbf is invalid")
    | none => .ok ()

/-- Modelled from the spec: the `jwt.Parse(tokenString, keyfunc)` call of the
source (lines 175-180).  The library parses the token, runs the source's
keyfunc (which rejects any non-RSA signing method), verifies the signature
over header+payload with the returned public key, and then validates the
standard time claims; on success it yields the payload claim map. -/
def jwtParse (env : VerifyEnv) (tok : String) (publicKey : Nat) : Except JwtError JObj :=
  match env.jwtPayloadClaims tok with
  | .error m => .error (.malformed m)
  | .ok claims =>
    if env.jwtMethodIsRSA tok then
      if env.jwtSigValid tok publicKey then
        match validateTimeClaims env.now claims with
        | .ok _ => .ok claims
        | .error e => .error e
      else .error .signatureInvalid
    else .error (.unexpectedSigningMethod (env.jwtAlg tok))

/-- The audience check of `VerifyToken` (source lines 195-208), as the Go
if/else-if chain behaves: a string `aud` passes iff it equals the configured
audience; an array `aud` passes iff some string element equals it; an absent
`aud`, or one of any other type, is not checked at all and passes. -/
def audOk (claims : JObj) (audience : String) : Bool :=
  match jLookup claims "aud" with
  | some (.str a) => a == audience
  | some (.arr xs) =>
    xs.any (fun j => match j with | .str s => s == audience | _ => false)
  | _ => true

/-- Optional string claim with empty treated as absent (`org_id`, `email`,
`name` extraction of the source). -/
def optNonEmptyString (j : Option Json) : Option String :=
  match j with
  | some (.str s) => if s = "" then none else some s
  | _ => none

/-- String-array claim extraction (`roles`, `permissions`): when the claim is
an array, its string elements in order with non-string entries dropped
silently; otherwise the empty list. -/
def stringsOf (j : Option Json) : List String :=
  match j with
  | some (.arr xs) =>
    xs.filterMap (fun x => match x with | .str s => some s | _ => none)
  | _ => []

/-- The claim-validation and extraction tail of `VerifyToken` (source lines
191-255): issuer equality, the audience check, required non-empty `sub`,
then permissive extraction of the optional attributes into an
`AuthContext`. -/
def validateClaims (cfg : Config) (claims : JObj) : Except VerifyError AuthContext :=
  match jLookup claims "iss" with
  | some (.str iss) =>
    if iss = cfg.Issuer then
      if audOk claims cfg.Audience then
        match jLookup claims "sub" with
        | some (.str sub) =>
          if sub = "" then .error .missingSub
          else .ok {
            UserID := sub
            OrgID := optNonEmptyString (jLookup claims "org_id")
            Roles := stringsOf (jLookup claims "roles")
            Permissions := stringsOf (jLookup claims "permissions")
            Email := optNonEmptyString (jLookup claims "email")
            Name := optNonEmptyString (jLookup claims "name") }
        | _ => .error .missingSub
      else .error .invalidAudience
    else .error .invalidIssuer
  | _ => .error .invalidIssuer

/-- Which externally visible actions a `VerifyToken` run reached:
`keyLookupDone` is true iff the `keySet.LookupKeyID` call of line 165 was
executed, `jwtParseCalled` iff the `jwt.Parse` call of line 175 (the only
place any signature verification happens) was executed. -/
structure VerifyTrace where
  keyLookupDone : Bool
  jwtParseCalled : Bool
deriving Repr, DecidableEq

/-- The `auth.VerifyToken` function (source lines 139-256).  `ksRes` is the
result of the `jwksClient.GetKeySet` call.  Returns the verification result
together with the trace of which stages were reached. -/
def VerifyToken (env : VerifyEnv) (tokenString : String)
    (ksRes : Except String KeySet) (cfg : Config) :
    Except VerifyError AuthContext × VerifyTrace :=
  match splitOnChar '.' tokenString.toList with
  | [p0, _, _] =>
    (match base64URLDecode p0 with
     | none => (.error (.decodeHeaderFailed (env.b64ErrMsg (String.mk p0))), ⟨false, false⟩)
     | some headerBytes =>
       match env.parseJson headerBytes with
       | .error m => (.error (.parseHeaderFailed m), ⟨false, false⟩)
       | .ok header =>
         match jLookup header "kid" with
         | some (.str kid) =>
           (match ksRes with
            | .error m => (.error (.jwksFailed m), ⟨false, false⟩)
            | .ok keySet =>
              match lookupKeyID keySet kid with
              | none => (.error (.unknownKey kid), ⟨true, false⟩)
              | some key =>
                match key.raw with
                | .error m => (.error (.rawKeyFailed m), ⟨true, false⟩)
                | .ok publicKey =>
                  match jwtParse env tokenString publicKey with
                  | .error e => (.error (.verificationFailed e), ⟨true, true⟩)
                  | .ok claims => (validateClaims cfg claims, ⟨true, true⟩))
         | _ => (.error .missingKid, ⟨false, false⟩))
  | _ => (.error .invalidFormat, ⟨false, false⟩)

/-- Message text of a `JwtError` as `err.Error()` would render it at the
`jwt.Parse` call site.  Modelled from the spec: the exact library error
strings are not part of this repository; what matters for the claims is that
distinct error kinds render distinct texts. -/
def jwtErrMessage : JwtError → String
  | .malformed m => m
  | .unexpectedSigningMethod alg =>
    "token is unverifiable: error while executing keyfunc: unexpected signing method: " ++ alg
  | .signatureInvalid => "token signature is invalid"
  | .tokenExpired => "token has invalid claims: token is expired"
  | .tokenNotYetValid => "token has invalid claims: token is not valid yet"

/-- Message text of a `VerifyError` as `err.Error()` renders it: the format
strings are exactly the `fmt.Errorf` format strings of the source, with `%w`
and `%s` replaced by the carried text. -/
def errMessage : VerifyError → String
  | .invalidFormat => "invalid token format"
  | .decodeHeaderFailed m => "failed to decode token header: " ++ m
  | .parseHeaderFailed m => "failed to parse token header: " ++ m
  | .missingKid => "token missing kid in header"
  | .jwksFailed m => "failed to get JWKS: " ++ m
  | .unknownKey kid => "key not found for kid: " ++ kid
  | .rawKeyFailed m => "failed to get public key: " ++ m
  | .verificationFailed e => "token verification failed: " ++ jwtErrMessage e
  | .invalidIssuer => "invalid issuer"
  | .invalidAudience => "invalid audience"
  | .missingSub => "token missing sub claim"

/-- Outcome of running one gin middleware on a request: either
`c.JSON(status, body); c.Abort()` with the literal body fields, or
`c.Next()`; on the success path of `AuthMiddleware` the produced
`AuthContext` is attached to the request context first (`c.Set("auth", _)`),
recorded in the `next` payload; `RequirePermissions` attaches nothing. -/
inductive MWResult where
  | abortJSON (status : Nat) (body : JObj)
  | next (setAuth : Option AuthContext)

/-- Go's `strings.TrimPrefix`: drops `p` from the front of `s` when `s`
starts with it, otherwise returns `s` unchanged. -/
def trimLeading (p s : String) : String :=
  if hasLeading p.toList s.toList then String.mk (s.toList.drop p.toList.length) else s

/-- The `auth.AuthMiddleware` handler (source lines 258-279) acting on one
request whose `Authorization` header value is `authHeader` (`""` when the
header is absent, as `c.GetHeader` yields). -/
def AuthMiddleware (env : VerifyEnv) (ksRes : Except String KeySet)
    (cfg : Config) (authHeader : String) : MWResult :=
  if authHeader = "" ∨ hasLeading "Bearer ".toList authHeader.toList = false then
    .abortJSON 401 [("error", .str "Missing or invalid authorization header")]
  else
    match (VerifyToken env (trimLeading "Bearer " authHeader) ksRes cfg).1 with
    | .error e =>
      .abortJSON 401 [("error", .str "Invalid token"), ("details", .str (errMessage e))]
    | .ok authContext => .next (some authContext)

/-- Possible contents of the request-context slot `c.Get("auth")`: the value
`AuthMiddleware` stores (an `*AuthContext`), or a value of some other type
(the failed type-assertion branch of the source). -/
inductive SlotValue where
  | auth (ctx : AuthContext)
  | other

/-- Json array of strings, as `c.JSON` serialises a `[]string` field. -/
def strArr (xs : List String) : Json :=
  .arr (xs.map .str)

/-- The `auth.RequirePermissions` handler (source lines 281-324) acting on
one request whose context slot `"auth"` holds `slot` (`none` when never
set). -/
def RequirePermissions (requiredPermissions : List String)
    (slot : Option SlotValue) : MWResult :=
  match slot with
  | none => .abortJSON 401 [("error", .str "Not authenticated")]
  | some .other => .abortJSON 401 [("error", .str "Invalid auth context")]
  | some (.auth ctx) =>
    if requiredPermissions.all (fun required => ctx.Permissions.any (fun perm => perm == required)) then
      .next none
    else
      .abortJSON 403 [("error", .str "Insufficient permissions"),
                      ("required", strArr requiredPermissions),
                      ("has", strArr ctx.Permissions)]

/-
Theorems.  Shared helper lemmas come first, then one theorem per claim
(with counterexamples and witnesses where the status calls for them).
-/

/-- Read path of `GetKeySet`: a cached entry whose expiry is in the future is
returned as is, with no network fetch and no state change. -/
theorem GetKeySet_fresh (st : JWKSClientState) (now : Int) (fetch : FetchResult)
    (c : CachedJWKS) (hc : st.cache = some c) (h : now < c.expiresAt) :
    GetKeySet st now fetch = (.ok c.set, st, false) := by
  unfold GetKeySet
  rw [hc]
  simp [h]

/-- The refresh path leaves the state unchanged except on the
status-200-and-parsed branch, where it stores the parsed set with expiry
`now + TTL`. -/
theorem refreshJWKS_frame (st : JWKSClientState) (now : Int) (fetch : FetchResult) :
    (refreshJWKS st now fetch).2.1 = st
  ∨ ∃ s, fetch = .response 200 (.parsed s)
      ∧ (refreshJWKS st now fetch).2.1 = ⟨some ⟨s, now + st.cacheTTL⟩, st.cacheTTL⟩ := by
  unfold refreshJWKS
  cases fetch with
  | reqError m => left; rfl
  | doError m => left; cases hc : st.cache <;> simp
  | response status body =>
    by_cases hs : status ≠ 200
    · left
      simp only [if_pos hs]
      cases hc : st.cache <;> simp
    · push_neg at hs
      subst hs
      simp only [ne_eq, not_true_eq_false, if_neg, ite_false, reduceIte]
      cases body with
      | parseFail m => left; cases hc : st.cache <;> simp
      | parsed s => right; exact ⟨s, rfl, rfl⟩

/-- C9: GetKeySet mutates the cached state only when the fetch returns
status 200 with a parseable body; on every other path (fresh hit, request
construction error, network error, non-200 status, parse failure) the state
is left exactly unchanged, and on the mutating path the new state stores the
parsed set with expiry `now + TTL` and the TTL unchanged. -/
theorem C9_frame (st : JWKSClientState) (now : Int) (fetch : FetchResult) :
    (GetKeySet st now fetch).2.1 = st
  ∨ ∃ s, fetch = .response 200 (.parsed s)
      ∧ (GetKeySet st now fetch).2.1 = ⟨some ⟨s, now + st.cacheTTL⟩, st.cacheTTL⟩ := by
  unfold GetKeySet
  cases hc : st.cache with
  | none => exact refreshJWKS_frame st now fetch
  | some c =>
    by_cases h : now < c.expiresAt
    · left; simp [h]
    · simp only [if_neg h]
      exact refreshJWKS_frame st now fetch

/-- C5: whenever a cached KeySet exists with expiry after the call time, the
call returns it with no network access (third conjunct); hence for a pair of
calls whose second happens while the cache left by the first is still fresh,
the second performs no fetch and the total number of fetches is at most
one. -/
theorem C5_single_fetch (st : JWKSClientState) (t1 t2 : Int)
    (fr1 fr2 : FetchResult) (c : CachedJWKS)
    (hc : (GetKeySet st t1 fr1).2.1.cache = some c)
    (h2 : t2 < c.expiresAt) :
    GetKeySet (GetKeySet st t1 fr1).2.1 t2 fr2 = (.ok c.set, (GetKeySet st t1 fr1).2.1, false)
  ∧ (GetKeySet st t1 fr1).2.2.toNat + (GetKeySet (GetKeySet st t1 fr1).2.1 t2 fr2).2.2.toNat ≤ 1
  ∧ (∀ c0, st.cache = some c0 → t1 < c0.expiresAt →
       GetKeySet st t1 fr1 = (.ok c0.set, st, false)) := by
  have h2nd := GetKeySet_fresh (GetKeySet st t1 fr1).2.1 t2 fr2 c hc h2
  refine ⟨h2nd, ?_, fun c0 hc0 h1 => GetKeySet_fresh st t1 fr1 c0 hc0 h1⟩
  rw [h2nd]
  cases hb : (GetKeySet st t1 fr1).2.2 <;> simp

/-- C5 witness: with a cache entry expiring at instant 100 and two calls at
instants 10 and 20, the second call returns the cached set without fetching,
and the two calls perform no fetch at all. -/
theorem C5_single_fetch_witness :
    GetKeySet (GetKeySet ⟨some ⟨[⟨"k1", .ok 1⟩], 100⟩, 900⟩ 10 (.doError "down")).2.1 20 (.doError "down")
      = (.ok [⟨"k1", .ok 1⟩], (GetKeySet ⟨some ⟨[⟨"k1", .ok 1⟩], 100⟩, 900⟩ 10 (.doError "down")).2.1, false) :=
  (C5_single_fetch ⟨some ⟨[⟨"k1", .ok 1⟩], 100⟩, 900⟩ 10 20 (.doError "down") (.doError "down")
    ⟨[⟨"k1", .ok 1⟩], 100⟩ rfl (by decide)).1

/-- C3 counterexample: with a (stale) KeySet cached, a call whose HTTP
request construction fails returns an error even though a KeySet was
previously cached, contradicting the claim that `GetKeySet` returns an error
only when no KeySet has ever been cached. -/
theorem C3_counterexample :
    (⟨some ⟨[⟨"k1", .ok 1⟩], 100⟩, 900⟩ : JWKSClientState).cache ≠ none
  ∧ (GetKeySet ⟨some ⟨[⟨"k1", .ok 1⟩], 100⟩, 900⟩ 200 (.reqError "invalid URL")).1
      = .error "failed to create request: invalid URL" :=
  ⟨by simp, rfl⟩

/-- C3 amended: with a KeySet cached, a fetch failure by network error,
non-200 status, or unparseable body never makes `GetKeySet` fail (it returns
the cached set); an error with a nonempty cache is possible only when
constructing the HTTP request itself fails. -/
theorem C3_fallback (st : JWKSClientState) (now : Int) (fetch : FetchResult)
    (c : CachedJWKS) (hc : st.cache = some c) :
    (∀ msg, fetch = .doError msg → (GetKeySet st now fetch).1 = .ok c.set)
  ∧ (∀ status body, fetch = .response status body → status ≠ 200 →
       (GetKeySet st now fetch).1 = .ok c.set)
  ∧ (∀ msg, fetch = .response 200 (.parseFail msg) → (GetKeySet st now fetch).1 = .ok c.set)
  ∧ (∀ emsg, (GetKeySet st now fetch).1 = .error emsg → ∃ msg, fetch = .reqError msg) := by
  have hget : GetKeySet st now fetch = (.ok c.set, st, false)
      ∨ GetKeySet st now fetch = refreshJWKS st now fetch := by
    unfold GetKeySet
    rw [hc]
    by_cases h : now < c.expiresAt
    · left; simp [h]
    · right; simp [h]
  refine ⟨?_, ?_, ?_, ?_⟩
  · intro msg hm
    rcases hget with h | h
    · rw [h]
    · rw [h]; subst hm; simp [refreshJWKS, hc]
  · intro status body hm hs
    rcases hget with h | h
    · rw [h]
    · rw [h]; subst hm; simp [refreshJWKS, hc, hs]
  · intro msg hm
    rcases hget with h | h
    · rw [h]
    · rw [h]; subst hm; simp [refreshJWKS, hc]
  · intro emsg he
    rcases hget with h | h
    · rw [h] at he; simp at he
    · rw [h] at he
      cases fetch with
      | reqError m => exact ⟨m, rfl⟩
      | doError m => simp [refreshJWKS, hc] at he
      | response status body =>
        by_cases hs : status = 200
        · subst hs
          cases body with
          | parseFail m => simp [refreshJWKS, hc] at he
          | parsed s => simp [refreshJWKS] at he
        · simp [refreshJWKS, hc, hs] at he

/-- C3 witness: with a stale cached KeySet and a failing network round trip,
the call still succeeds with the cached set. -/
theorem C3_fallback_witness :
    (GetKeySet ⟨some ⟨[⟨"k1", .ok 1⟩], 100⟩, 900⟩ 200 (.doError "connection refused")).1
      = .ok [⟨"k1", .ok 1⟩] :=
  (C3_fallback ⟨some ⟨[⟨"k1", .ok 1⟩], 100⟩, 900⟩ 200 (.doError "connection refused")
    ⟨[⟨"k1", .ok 1⟩], 100⟩ rfl).1 "connection refused" rfl

/-- Pipeline lemma: when the structural checks pass, the header carries a
kid, the key set arrives, the kid resolves to a key and its raw material is
obtained, `VerifyToken` reduces to the `jwt.Parse` stage followed by claim
validation. -/
theorem VerifyToken_run_jwt (env : VerifyEnv) (tok : String) (ks : KeySet) (cfg : Config)
    (p0 p1 p2 : List Char) (bs : List Nat) (hdr : JObj) (kid : String)
    (key : JWKKey) (pk : Nat)
    (h1 : splitOnChar '.' tok.toList = [p0, p1, p2])
    (h2 : base64URLDecode p0 = some bs)
    (h3 : env.parseJson bs = .ok hdr)
    (h4 : jLookup hdr "kid" = some (.str kid))
    (h5 : lookupKeyID ks kid = some key)
    (h6 : key.raw = .ok pk) :
    VerifyToken env tok (.ok ks) cfg =
      (match jwtParse env tok pk with
       | .error e => (.error (.verificationFailed e), ⟨true, true⟩)
       | .ok claims => (validateClaims cfg claims, ⟨true, true⟩)) := by
  unfold VerifyToken
  rw [h1]
  simp only [h2, h3, h4, h5, h6]

/-- C6: a structurally well-formed token (three segments, decodable header
carrying a string kid) whose kid is absent from the retrieved KeySet makes
`VerifyToken` fail with the unknown-key error; the `jwt.Parse` call — the
only place signature verification happens, with the key that would have been
looked up — is never reached, so no signature verification with any default
or fallback key is performed, and no `AuthContext` is produced. -/
theorem C6_unknown_kid (env : VerifyEnv) (tok : String) (ks : KeySet) (cfg : Config)
    (p0 p1 p2 : List Char) (bs : List Nat) (hdr : JObj) (kid : String)
    (h1 : splitOnChar '.' tok.toList = [p0, p1, p2])
    (h2 : base64URLDecode p0 = some bs)
    (h3 : env.parseJson bs = .ok hdr)
    (h4 : jLookup hdr "kid" = some (.str kid))
    (h5 : lookupKeyID ks kid = none) :
    VerifyToken env tok (.ok ks) cfg = (.error (.unknownKey kid), ⟨true, false⟩) := by
  unfold VerifyToken
  rw [h1]
  simp only [h2, h3, h4, h5]

/-- A result of the claim-validation tail is never the structural format
error. -/
theorem validateClaims_ne_invalidFormat (cfg : Config) (claims : JObj) :
    validateClaims cfg claims ≠ .error .invalidFormat := by
  unfold validateClaims
  split
  · split
    · split
      · split
        · split <;> simp
        · simp
      · simp
    · simp
  · simp

/-- C8 (amended): `VerifyToken` produces the structural invalid-format error
exactly for tokens whose dot-separated segment count differs from three, and
for those it does so before any key lookup or signature verification
(trace all false); base64url-validity of the segments is not part of this
structural check. -/
theorem C8_invalid_format (env : VerifyEnv) (tok : String)
    (ksRes : Except String KeySet) (cfg : Config) :
    ((VerifyToken env tok ksRes cfg).1 = .error .invalidFormat ↔
       (splitOnChar '.' tok.toList).length ≠ 3)
  ∧ ((splitOnChar '.' tok.toList).length ≠ 3 →
       VerifyToken env tok ksRes cfg = (.error .invalidFormat, ⟨false, false⟩)) := by
  unfold VerifyToken
  rcases hs : splitOnChar '.' tok.toList with _ | ⟨a, _ | ⟨b, _ | ⟨c, _ | ⟨d, t⟩⟩⟩⟩
  · exact ⟨by simp, fun _ => rfl⟩
  · exact ⟨by simp, fun _ => rfl⟩
  · exact ⟨by simp, fun _ => rfl⟩
  · refine ⟨iff_of_false ?_ (by simp), fun h => absurd rfl h⟩
    repeat' split
    all_goals simp [validateClaims_ne_invalidFormat]
  · exact ⟨by simp, fun _ => rfl⟩

/-- One array element satisfies the source's audience membership test iff it
is exactly the string `aud`. -/
theorem audElem_true_iff (aud : String) (x : Json) :
    ((match x with | .str s => s == aud | _ => false) = true) ↔ x = Json.str aud := by
  cases x <;> simp

/-- The audience check fails exactly when `aud` is present as a string
different from the configured audience, or as an array none of whose
elements is that exact string. -/
theorem audOk_eq_false_iff (claims : JObj) (aud : String) :
    audOk claims aud = false ↔
      ((∃ a, jLookup claims "aud" = some (.str a) ∧ a ≠ aud) ∨
       (∃ xs, jLookup claims "aud" = some (.arr xs) ∧ ∀ x ∈ xs, x ≠ Json.str aud)) := by
  unfold audOk
  cases h : jLookup claims "aud" with
  | none => simp [h]
  | some j =>
    cases j with
    | str a => simp [h]
    | arr xs =>
      rw [show ∀ b : Bool, (b = false) = ¬ (b = true) from fun b => by simp]
      rw [List.any_eq_true]
      simp only [h, Option.some.injEq, audElem_true_iff]
      constructor
      · intro hno
        refine Or.inr ⟨xs, rfl, fun x hx => ?_⟩
        intro hxe
        exact hno ⟨x, hx, hxe⟩
      · rintro (⟨a, ha, _⟩ | ⟨ys, hys, hall⟩) ⟨x, hx, hxe⟩
        · cases ha
        · cases hys
          exact hall x hx hxe
    | null => simp [h]
    | bool b => simp [h]
    | num n => simp [h]
    | obj fields => simp [h]

/-- C1 (amended): for a token that reaches claim validation with a verified
signature and a correct issuer, `VerifyToken` fails with the audience error
exactly when the `aud` claim is a string different from the configured
audience or an array containing no string element equal to it; an absent
`aud`, or one of a non-string non-array type, is not checked at all (an
empty array, however, is rejected). -/
theorem C1_audience (env : VerifyEnv) (tok : String) (ks : KeySet) (cfg : Config)
    (p0 p1 p2 : List Char) (bs : List Nat) (hdr : JObj) (kid : String)
    (key : JWKKey) (pk : Nat) (claims : JObj)
    (h1 : splitOnChar '.' tok.toList = [p0, p1, p2])
    (h2 : base64URLDecode p0 = some bs)
    (h3 : env.parseJson bs = .ok hdr)
    (h4 : jLookup hdr "kid" = some (.str kid))
    (h5 : lookupKeyID ks kid = some key)
    (h6 : key.raw = .ok pk)
    (h7 : jwtParse env tok pk = .ok claims)
    (h8 : jLookup claims "iss" = some (.str cfg.Issuer)) :
    (VerifyToken env tok (.ok ks) cfg).1 = .error .invalidAudience ↔
      ((∃ a, jLookup claims "aud" = some (.str a) ∧ a ≠ cfg.Audience) ∨
       (∃ xs, jLookup claims "aud" = some (.arr xs) ∧ ∀ x ∈ xs, x ≠ Json.str cfg.Audience)) := by
  rw [VerifyToken_run_jwt env tok ks cfg p0 p1 p2 bs hdr kid key pk h1 h2 h3 h4 h5 h6, h7]
  rw [← audOk_eq_false_iff claims cfg.Audience]
  show validateClaims cfg claims = .error .invalidAudience ↔ _
  unfold validateClaims
  rw [h8]
  simp only [if_pos rfl]
  cases haud : audOk claims cfg.Audience
  · simp
  · simp only [if_pos rfl, Bool.true_eq_false, iff_false]
    repeat' split
    all_goals simp

/-- C4: when the pipeline reaches `jwt.Parse` with a parseable payload, an
RSA signing method and a valid signature, a present `exp` claim not in the
future makes `VerifyToken` fail with the token-expired error, and (when the
`exp` check passes or is absent) a present `nbf` claim in the future makes
it fail with the not-yet-valid error; both are errors, so no `AuthContext`
is produced. -/
theorem C4_time_claims (env : VerifyEnv) (tok : String) (ks : KeySet) (cfg : Config)
    (p0 p1 p2 : List Char) (bs : List Nat) (hdr : JObj) (kid : String)
    (key : JWKKey) (pk : Nat) (claims : JObj)
    (h1 : splitOnChar '.' tok.toList = [p0, p1, p2])
    (h2 : base64URLDecode p0 = some bs)
    (h3 : env.parseJson bs = .ok hdr)
    (h4 : jLookup hdr "kid" = some (.str kid))
    (h5 : lookupKeyID ks kid = some key)
    (h6 : key.raw = .ok pk)
    (h7 : env.jwtPayloadClaims tok = .ok claims)
    (h8 : env.jwtMethodIsRSA tok = true)
    (h9 : env.jwtSigValid tok pk = true) :
    (∀ e : Int, jLookup claims "exp" = some (.num e) → ¬ env.now < e →
       (VerifyToken env tok (.ok ks) cfg).1 = .error (.verificationFailed .tokenExpired))
  ∧ (∀ n : Int,
       (jLookup claims "exp" = none
         ∨ ∃ e : Int, jLookup claims "exp" = some (.num e) ∧ env.now < e) →
       jLookup claims "nbf" = some (.num n) → env.now < n →
       (VerifyToken env tok (.ok ks) cfg).1 = .error (.verificationFailed .tokenNotYetValid)) := by
  rw [VerifyToken_run_jwt env tok ks cfg p0 p1 p2 bs hdr kid key pk h1 h2 h3 h4 h5 h6]
  unfold jwtParse
  rw [h7, h8, h9]
  simp only [if_pos rfl]
  constructor
  · intro e hexp hlt
    unfold validateTimeClaims
    rw [hexp]
    simp [hlt]
  · intro n hexp hnbf hlt
    unfold validateTimeClaims
    rcases hexp with hnone | ⟨e, hsome, he⟩
    · rw [hnone, hnbf]
      simp [hlt]
    · rw [hsome, hnbf]
      simp [he, hlt]

/-- C2 (amended): when the Authorization header carries a Bearer token and
verification fails with internal error `e`, the gate responds 401 with the
generic error field `Invalid token` but also a `details` field carrying the
internal error's rendered message, so distinct internal error kinds remain
distinguishable from outside. -/
theorem C2_details (env : VerifyEnv) (ksRes : Except String KeySet) (cfg : Config)
    (authHeader : String) (e : VerifyError)
    (hne : authHeader ≠ "")
    (hb : hasLeading "Bearer ".toList authHeader.toList = true)
    (hv : (VerifyToken env (trimLeading "Bearer " authHeader) ksRes cfg).1 = .error e) :
    AuthMiddleware env ksRes cfg authHeader =
      .abortJSON 401 [("error", .str "Invalid token"), ("details", .str (errMessage e))] := by
  unfold AuthMiddleware
  rw [if_neg]
  · rw [hv]
  · rintro (h | h)
    · exact hne h
    · exact absurd (hb.symm.trans h) (by decide)

/-- C7: with an AuthContext attached, the permission check lets the request
proceed exactly when every required permission occurs in the held list
(exact string equality, conjunction over the whole required list), and on
any missing permission it aborts with 403 and a body carrying both the
required and the held lists. -/
theorem C7_conjunction (required : List String) (ctx : AuthContext) :
    (RequirePermissions required (some (.auth ctx)) = .next none ↔
       ∀ r ∈ required, r ∈ ctx.Permissions)
  ∧ ((∃ r ∈ required, r ∉ ctx.Permissions) →
       RequirePermissions required (some (.auth ctx)) =
         .abortJSON 403 [("error", .str "Insufficient permissions"),
                         ("required", strArr required), ("has", strArr ctx.Permissions)]) := by
  have hall : (required.all (fun r => ctx.Permissions.any (fun perm => perm == r)) = true)
      ↔ ∀ r ∈ required, r ∈ ctx.Permissions := by
    simp [List.all_eq_true, List.any_eq_true]
  have hred : RequirePermissions required (some (.auth ctx)) =
      if required.all (fun r => ctx.Permissions.any (fun perm => perm == r)) then
        MWResult.next none
      else
        .abortJSON 403 [("error", .str "Insufficient permissions"),
                        ("required", strArr required),
                        ("has", strArr ctx.Permissions)] := rfl
  rw [hred]
  by_cases hb : required.all (fun r => ctx.Permissions.any (fun perm => perm == r)) = true
  · rw [if_pos hb]
    exact ⟨iff_of_true rfl (hall.mp hb), fun ⟨r, hr, hno⟩ => absurd (hall.mp hb r hr) hno⟩
  · rw [if_neg hb]
    refine ⟨iff_of_false (by simp) ?_, fun _ => rfl⟩
    intro hforall
    exact hb (hall.mpr hforall)

/-- C10: with an AuthContext attached, an empty required-permissions list
always lets the request proceed, whatever permissions the identity holds:
the conjunction is vacuously satisfied. -/
theorem C10_empty_required (ctx : AuthContext) :
    RequirePermissions [] (some (.auth ctx)) = .next none := rfl

/-
Concrete objects for counterexamples and witnesses.  The token string
`e30.e30.e30` is three valid unpadded base64url segments (each decoding to
the bytes of the text of an empty object).
-/

/-- Key set with the single key id `k1`, used by the concrete examples. -/
def exKS : KeySet := [⟨"k1", .ok 1⟩]

/-- Concrete configuration used in the examples. -/
def exCfg : Config :=
  ⟨"https://jwks.example/keys", "https://issuer.example", "aud-1", 900⟩

/-- Concrete library environment for the examples: the header parses to a
kid of `k1`, the jwt library reports the given payload claims, an RSA
method and a valid signature; validation time is instant 0. -/
def exEnv (claims : JObj) : VerifyEnv :=
  { parseJson := fun _ => .ok [("kid", .str "k1")]
    b64ErrMsg := fun s => "illegal base64 data: " ++ s
    jwtPayloadClaims := fun _ => .ok claims
    jwtAlg := fun _ => "RS256"
    jwtMethodIsRSA := fun _ => true
    jwtSigValid := fun _ _ => true
    now := 0 }

/-- C1 counterexample: a token whose signature verifies and whose claims
carry the right issuer and subject but no `aud` claim at all passes
verification and yields an `AuthContext`, contradicting the claim that an
absent `aud` fails with an audience error. -/
theorem C1_counterexample :
    jLookup [("iss", Json.str "https://issuer.example"), ("sub", Json.str "user-1")] "aud" = none
  ∧ (VerifyToken (exEnv [("iss", .str "https://issuer.example"), ("sub", .str "user-1")])
       "e30.e30.e30" (.ok exKS) exCfg).1
      = .ok ⟨"user-1", none, [], [], none, none⟩ :=
  ⟨rfl, rfl⟩

/-- C1 witness: a token whose `aud` claim is the string `wrong` (different
from the configured audience) is rejected with the audience error. -/
theorem C1_audience_witness :
    (VerifyToken (exEnv [("iss", Json.str "https://issuer.example"),
        ("aud", Json.str "wrong"), ("sub", Json.str "user-1")])
       "e30.e30.e30" (.ok exKS) exCfg).1 = .error .invalidAudience :=
  (C1_audience (exEnv [("iss", Json.str "https://issuer.example"),
      ("aud", Json.str "wrong"), ("sub", Json.str "user-1")])
    "e30.e30.e30" exKS exCfg
    ['e', '3', '0'] ['e', '3', '0'] ['e', '3', '0'] [123, 125]
    [("kid", Json.str "k1")] "k1" ⟨"k1", Except.ok 1⟩ 1
    [("iss", Json.str "https://issuer.example"),
     ("aud", Json.str "wrong"), ("sub", Json.str "user-1")]
    rfl rfl rfl rfl rfl rfl rfl rfl).mpr
    (Or.inl ⟨"wrong", rfl, by decide⟩)

/-- C4 witness: a token with `exp` at instant -5 validated at instant 0 is
rejected with the token-expired error. -/
theorem C4_time_claims_witness :
    (VerifyToken (exEnv [("iss", Json.str "https://issuer.example"),
        ("sub", Json.str "user-1"), ("exp", Json.num (-5))])
       "e30.e30.e30" (.ok exKS) exCfg).1
      = .error (.verificationFailed .tokenExpired) :=
  (C4_time_claims (exEnv [("iss", Json.str "https://issuer.example"),
      ("sub", Json.str "user-1"), ("exp", Json.num (-5))])
    "e30.e30.e30" exKS exCfg
    ['e', '3', '0'] ['e', '3', '0'] ['e', '3', '0'] [123, 125]
    [("kid", Json.str "k1")] "k1" ⟨"k1", Except.ok 1⟩ 1
    [("iss", Json.str "https://issuer.example"),
     ("sub", Json.str "user-1"), ("exp", Json.num (-5))]
    rfl rfl rfl rfl rfl rfl rfl rfl rfl).1
    (-5) rfl (by decide)

/-- C6 witness: a well-formed token whose kid `k1` is absent from the
retrieved key set fails with the unknown-key error, and the `jwt.Parse`
stage is never reached. -/
theorem C6_unknown_kid_witness :
    VerifyToken (exEnv []) "e30.e30.e30" (.ok [⟨"other", .ok 2⟩]) exCfg
      = (.error (.unknownKey "k1"), ⟨true, false⟩) :=
  C6_unknown_kid (exEnv []) "e30.e30.e30" [⟨"other", .ok 2⟩] exCfg
    ['e', '3', '0'] ['e', '3', '0'] ['e', '3', '0'] [123, 125]
    [("kid", Json.str "k1")] "k1"
    rfl rfl rfl rfl rfl

/-- C8 counterexample: the token `!.x.y` has three dot-separated segments
whose first is not valid base64url, so by the claim it should fail with the
structural format error; the code fails with the distinct decode-header
error instead.  And for `e30.!.e30`, whose payload segment is not valid
base64url, the code does not fail before key lookup: the lookup is
performed. -/
theorem C8_counterexample :
    base64URLDecode ['!'] = none
  ∧ (VerifyToken (exEnv []) "!.x.y" (.ok exKS) exCfg).1
      = .error (.decodeHeaderFailed "illegal base64 data: !")
  ∧ VerifyError.decodeHeaderFailed "illegal base64 data: !" ≠ .invalidFormat
  ∧ (VerifyToken (exEnv []) "e30.!.e30" (.ok exKS) exCfg).2.keyLookupDone = true :=
  ⟨rfl, rfl, by decide, rfl⟩

/-- C8 witness: a token with a single segment is rejected with the
structural format error before any key lookup or signature verification. -/
theorem C8_invalid_format_witness :
    VerifyToken (exEnv []) "abc" (.ok exKS) exCfg
      = (.error .invalidFormat, ⟨false, false⟩) :=
  (C8_invalid_format (exEnv []) "abc" (.ok exKS) exCfg).2 (by decide)

/-- C2 counterexample: two requests failing verification for different
internal reasons (wrong issuer; missing subject) receive different 401
bodies, each carrying the internal error text in the `details` field — the
response is not a generic-only message and the error kinds are
distinguishable externally. -/
theorem C2_counterexample :
    AuthMiddleware (exEnv [("iss", Json.str "evil")]) (.ok exKS) exCfg "Bearer e30.e30.e30"
      = .abortJSON 401 [("error", .str "Invalid token"), ("details", .str "invalid issuer")]
  ∧ AuthMiddleware (exEnv [("iss", Json.str "https://issuer.example")]) (.ok exKS) exCfg
        "Bearer e30.e30.e30"
      = .abortJSON 401 [("error", .str "Invalid token"),
                        ("details", .str "token missing sub claim")]
  ∧ ("invalid issuer" : String) ≠ "token missing sub claim" :=
  ⟨rfl, rfl, by decide⟩

/-- C2 witness: a concrete failing verification produces the 401 body with
the rendered internal message in `details`. -/
theorem C2_details_witness :
    AuthMiddleware (exEnv []) (.ok exKS) exCfg "Bearer e30.e30.e30"
      = .abortJSON 401 [("error", .str "Invalid token"),
                        ("details", .str (errMessage .invalidIssuer))] :=
  C2_details (exEnv []) (.ok exKS) exCfg "Bearer e30.e30.e30" .invalidIssuer
    (by decide) rfl rfl

/-- C7 witness: the spec's own example — requiring `a` and `b`, an identity
holding only `a` is rejected with the required and held lists disclosed,
while one holding `a`, `b`, `c` proceeds. -/
theorem C7_conjunction_witness :
    RequirePermissions ["a", "b"] (some (.auth ⟨"u", none, [], ["a"], none, none⟩))
      = .abortJSON 403 [("error", .str "Insufficient permissions"),
                        ("required", strArr ["a", "b"]), ("has", strArr ["a"])]
  ∧ RequirePermissions ["a", "b"]
        (some (.auth ⟨"u", none, [], ["a", "b", "c"], none, none⟩)) = .next none :=
  ⟨(C7_conjunction ["a", "b"] ⟨"u", none, [], ["a"], none, none⟩).2
      ⟨"b", by decide, by decide⟩,
   (C7_conjunction ["a", "b"] ⟨"u", none, [], ["a", "b", "c"], none, none⟩).1.mpr
      (by decide)⟩

end MediaAuth
